import Mathlib

/-!
Shallow embedding of the `filesystem-agent` repository: a Next.js scaffold
wiring an LLM agent to a sandboxed shell.

Embedded sources:
* `src/app/api/route.ts` — the POST request handler (prompt extraction from
  the last chat message, agent run, UI-event streaming, catch-and-display
  error path).
* `src/lib/agent.ts` — the checked-in agent definition: a `ToolLoopAgent`
  constructed from `{ model: "anthropic/claude-opus-4.6", tools: {},
  instructions: "" }`. Note the checked-in tool set is the empty object.
* `src/README.md` — the tutorial text; its code blocks contain the
  completed versions of `lib/tools.ts` (`createBashTool`) and
  `lib/agent.ts` (sandbox creation, `loadSandboxFiles`, the agent with the
  `bashTool` registered), which live on the repository's `final` branch and
  are embedded here from the README's own code.
* `src/unnamed/part_000` — the chat form component (`handleSubmit`).

External behaviour (the AI SDK agent loop, the Vercel sandbox executor,
JSON body parsing) is abstracted as function parameters: `agentStream`
stands for `agent.stream(...)` followed by `toUIMessageStream()`, and
`runCommand` stands for `sandbox.runCommand`.
-/

/-- A part of a UI chat message. In the TypeScript source a part carries a
`type` tag and, for `type === 'text'`, a `text` field; the `text` field of a
non-text part is never read by the code we embed, so carrying it for every
part loses nothing. -/
structure MessagePart where
  type : String
  text : String
deriving DecidableEq

/-- A UI chat message as consumed by `route.ts`: only its `parts` field is
read, through optional chaining (`lastMessage?.parts?...`), so `parts` is an
`Option`. -/
structure UIMessage where
  parts : Option (List MessagePart)
deriving DecidableEq

/-- The prompt computed from a present last message: the subexpression
`lastMessage?.parts?.filter(...).map(...).join('\n') || ''` of `route.ts`
lines 13–19. Optional chaining into `parts` is an `Option` match, and the
trailing JavaScript `|| ''` maps an undefined chain and an empty join alike
to `''`. -/
def promptOfLast (lastMessage : UIMessage) : String :=
  match lastMessage.parts with
  | none => ""
  | some parts =>
    let joined :=
      String.intercalate "\n"
        ((parts.filter fun part => part.type == "text").map fun part => part.text)
    if joined == "" then "" else joined

/-- Embeds `src/app/api/route.ts` lines 12–19: take the last element of
`messages` (`messages[messages.length - 1]`, `undefined` on the empty
array, in which case the whole optional chain is `undefined` and `|| ''`
yields `''`), then compute the prompt from it. -/
def extractPrompt (messages : List UIMessage) : String :=
  match messages.getLast? with
  | none => ""
  | some lastMessage => promptOfLast lastMessage

/-- An event written to the UI message stream. `textStart`/`textDelta`/
`textEnd` are the `writer.write` payload shapes used by the error path of
`route.ts`; `fromAgent` stands for an opaque event of the agent's own UI
message stream relayed by `writer.merge`. -/
inductive UIEvent where
  | textStart (id : String)
  | textDelta (id : String) (delta : String)
  | textEnd (id : String)
  | fromAgent (payload : String)
deriving DecidableEq

/-- The value returned by the handler: `createUIMessageStreamResponse`
always yields a streaming response whose body is the sequence of events
written to (or merged into) the stream. -/
inductive Response where
  | streamResponse (events : List UIEvent)
deriving DecidableEq

/-- Embeds the `POST` handler of `src/app/api/route.ts` lines 8–46.
`agentStream prompt` abstracts `await agent.stream({ prompt })` followed by
`toUIMessageStream()`: `Except.ok events` when the run starts and streams
`events`, `Except.error e` when it throws. On success the handler merges
the agent's stream into the response; on a throw the catch block writes a
`text-start`/`text-delta`/`text-end` sequence with the shared id `"error"`
and the fixed display string, and the handler still returns the stream
response (the error is not rethrown). -/
def POST (agentStream : String → Except String (List UIEvent))
    (messages : List UIMessage) : Response :=
  let prompt := extractPrompt messages
  Response.streamResponse
    (match agentStream prompt with
     | Except.ok events => events
     | Except.error _ =>
         [UIEvent.textStart "error",
          UIEvent.textDelta "error" "An error occurred. Please try again.",
          UIEvent.textEnd "error"])

/-- The result object built by the bash tool's `execute` callback
(README, `lib/tools.ts`): the sandbox command's stdout, stderr and exit
code. -/
structure CommandResult where
  stdout : String
  stderr : String
  exitCode : Int
deriving DecidableEq

/-- The bash tool's input, as described by its Zod `inputSchema`
(README, `lib/tools.ts`): a `command` string and an `args` string array. -/
structure BashToolInput where
  command : String
  args : List String
deriving DecidableEq

/-- The type of a tool's `execute` callback, with the sandbox abstracted as
the `runCommand` function it closes over. -/
abbrev ToolExecute :=
  (String → List String → CommandResult) → BashToolInput → CommandResult

/-- The agent configuration object passed to the `ToolLoopAgent`
constructor: a model identifier, an instruction string, and a map from tool
names to tools. -/
structure AgentConfig where
  model : String
  instructions : String
  tools : List (String × ToolExecute)

/-- Embeds `src/lib/agent.ts` lines 3–9, the checked-in (starter) agent:
`new ToolLoopAgent({ model: "anthropic/claude-opus-4.6", tools: {},
instructions: "" })`. Its tool set is the empty object. -/
def agent : AgentConfig :=
  { model := "anthropic/claude-opus-4.6", instructions := "", tools := [] }

/-- The value of a field of the configuration object literal. -/
inductive ConfigValue where
  | str (s : String)
  | toolSet (names : List String)
deriving DecidableEq

/-- The configuration object literal of `src/lib/agent.ts` lines 4–8, kept
as the written field list so that the exact set of supplied fields is part
of the embedding: `model`, then `tools`, then `instructions`, and nothing
else. -/
def agentConfigLiteral : List (String × ConfigValue) :=
  [("model", ConfigValue.str "anthropic/claude-opus-4.6"),
   ("tools", ConfigValue.toolSet []),
   ("instructions", ConfigValue.str "")]

/-- The field type of a Zod schema field used by the bash tool's schema. -/
inductive ZodFieldType where
  | string
  | arrayString
deriving DecidableEq

/-- The bash tool's `inputSchema` from the README's `lib/tools.ts`:
`z.object({ command: z.string()..., args: z.array(z.string())... })` — two
fields, `command` and `args`. -/
def bashToolInputSchema : List (String × ZodFieldType) :=
  [("command", ZodFieldType.string), ("args", ZodFieldType.arrayString)]

/-- The bash tool's `execute` callback from the README's `lib/tools.ts`:
`const result = await sandbox.runCommand(command, args)`, then return
`{ stdout: ..., stderr: ..., exitCode: result.exitCode }`. -/
def bashToolExecute : ToolExecute :=
  fun runCommand input =>
    let result := runCommand input.command input.args
    { stdout := result.stdout, stderr := result.stderr, exitCode := result.exitCode }

/-- The completed agent from the README's final `lib/agent.ts`: model
`anthropic/claude-opus-4.6`, the tutorial instruction text, and the single
tool entry `bashTool: createBashTool(sandbox)`. -/
def finalAgent : AgentConfig :=
  { model := "anthropic/claude-opus-4.6",
    instructions := "\nYou are a helpful assistant that answers questions about customer calls. Use bashTool to explore the files and find relevant information pertaining to the user's query. Using the information you find, craft a response for the user and output it as text.\n",
    tools := [("bashTool", bashToolExecute)] }

/-- A single file written to the sandbox filesystem by
`sandbox.writeFiles`. -/
structure SandboxWrite where
  path : String
  content : String
deriving DecidableEq

/-- Node's `path.join` restricted to the two-argument uses in the source. -/
def pathJoin (a b : String) : String := a ++ "/" ++ b

/-- Embeds `loadSandboxFiles` from the README's final `lib/agent.ts`:
build `callsDir = path.join(cwd, 'lib', 'calls')`, read its entries, and
for each entry read the file and write it into the sandbox at
`calls/<name>`. The local filesystem is abstracted by `readdir` and
`readFile`. -/
def loadSandboxFiles (cwd : String) (readdir : String → List String)
    (readFile : String → String) : List SandboxWrite :=
  let callsDir := pathJoin (pathJoin cwd "lib") "calls"
  let callFiles := readdir callsDir
  callFiles.map fun file =>
    { path := "calls/" ++ file, content := readFile (pathJoin callsDir file) }

/-- A top-level effect performed while the agent module is loaded, i.e.
before the exported `agent` is available to the route handler. -/
inductive StartupAction where
  | createSandbox
  | sandboxWriteFiles (writes : List SandboxWrite)
  | constructAgent (toolNames : List String)
deriving DecidableEq

/-- Whether a startup action copies a file into the sandbox. -/
def StartupAction.isFileCopy : StartupAction → Bool
  | StartupAction.sandboxWriteFiles _ => true
  | _ => false

/-- The module-load effects of the checked-in `src/lib/agent.ts`: the file's
only top-level statement constructs the agent (with the empty tool set); no
sandbox is created and no file is copied. -/
def agentModuleStartup : List StartupAction :=
  [StartupAction.constructAgent []]

/-- The module-load effects of the README's final `lib/agent.ts`:
`await Sandbox.create()`, then `await loadSandboxFiles(sandbox)` — one
single-element `writeFiles` call per local file, in directory order — and
only then the `ToolLoopAgent` construction with the `bashTool` entry. -/
def finalAgentModuleStartup (cwd : String) (readdir : String → List String)
    (readFile : String → String) : List StartupAction :=
  StartupAction.createSandbox ::
    (loadSandboxFiles cwd readdir readFile).map
      (fun w => StartupAction.sandboxWriteFiles [w])
    ++ [StartupAction.constructAgent ["bashTool"]]

/-- The outcome of the chat form's submit handler: the value of the `input`
state after the handler runs, and the message sent (if any). -/
structure SubmitOutcome where
  inputState : String
  sentMessage : Option String
deriving DecidableEq

/-- The character set trimmed by JavaScript `String.prototype.trim`: the
ECMAScript WhiteSpace production — TAB U+0009, VT U+000B, FF U+000C, SP
U+0020, NBSP U+00A0, ZWNBSP U+FEFF and the Unicode space-separator (Zs)
characters U+1680, U+2000..U+200A, U+202F, U+205F, U+3000 — together with
the LineTerminator characters LF U+000A, CR U+000D, LS U+2028 and PS
U+2029. -/
def jsIsWhitespace (c : Char) : Bool :=
  let n := c.toNat
  n == 0x09 || n == 0x0A || n == 0x0B || n == 0x0C || n == 0x0D ||
  n == 0x20 || n == 0xA0 || n == 0x1680 ||
  (0x2000 ≤ n && n ≤ 0x200A) ||
  n == 0x2028 || n == 0x2029 || n == 0x202F || n == 0x205F ||
  n == 0x3000 || n == 0xFEFF

/-- JavaScript `String.prototype.trim`, modelled executably: drop leading
and trailing ECMAScript whitespace characters from the character list of
the string. -/
def jsTrim (s : String) : String :=
  String.mk (((s.data.dropWhile jsIsWhitespace).reverse.dropWhile
    jsIsWhitespace).reverse)

/-- Embeds `handleSubmit` from `src/unnamed/part_000` lines 13–19: if
`input.trim()` is falsy (i.e. the trimmed input is the empty string) the
handler returns early, sending nothing and leaving the `input` state
untouched; otherwise it saves the untrimmed input, resets the state to
`''`, and sends the saved text. -/
def handleSubmit (input : String) : SubmitOutcome :=
  if jsTrim input == "" then { inputState := input, sentMessage := none }
  else { inputState := "", sentMessage := some input }

/-- The prompt as the spec describes it: the newline-join of the `text`
fields of the last message's parts of type `text`, in their original
order, with non-text parts ignored. Stated over a single message; used as
the reference value for the refinement claim about `extractPrompt`. -/
def specLastMessagePrompt (m : UIMessage) : String :=
  String.intercalate "\n"
    (((m.parts.getD []).filter fun part => part.type == "text").map fun part => part.text)

theorem string_intercalate_nil (s : String) : s.intercalate [] = "" := rfl

theorem ite_beq_empty (s : String) : (if s == "" then "" else s) = s := by
  by_cases h : s = ""
  · subst h; rfl
  · simp [h]

theorem promptOfLast_eq_spec (m : UIMessage) :
    promptOfLast m = specLastMessagePrompt m := by
  unfold promptOfLast specLastMessagePrompt
  cases hp : m.parts with
  | none => exact (string_intercalate_nil "\n").symm
  | some ps => exact ite_beq_empty _

theorem extractPrompt_getLast (messages : List UIMessage) (m : UIMessage)
    (hlast : messages.getLast? = some m) :
    extractPrompt messages = specLastMessagePrompt m := by
  unfold extractPrompt
  rw [hlast]
  exact promptOfLast_eq_spec m

/-- C6: the agent object is constructed from a configuration with exactly
three fields — a model identifier string, a system instruction string, and
a set of callable tools — and no other configuration field is supplied
(`src/lib/agent.ts` lines 3–9). -/
theorem agent_config_three_fields :
    agentConfigLiteral.map Prod.fst = ["model", "tools", "instructions"] ∧
    agentConfigLiteral.length = 3 ∧
    agentConfigLiteral.lookup "model" =
      some (ConfigValue.str "anthropic/claude-opus-4.6") ∧
    agentConfigLiteral.lookup "instructions" = some (ConfigValue.str "") ∧
    (∃ names, agentConfigLiteral.lookup "tools" = some (ConfigValue.toolSet names)) ∧
    agent.model = "anthropic/claude-opus-4.6" ∧
    agent.instructions = "" ∧
    agent.tools = [] :=
  ⟨rfl, rfl, by decide, by decide, ⟨[], by decide⟩, rfl, rfl, rfl⟩

/-- C1 counterexample: the claim says the agent's tool set contains exactly
one tool, but the checked-in agent of `src/lib/agent.ts` is constructed
with `tools: {}` — its tool set is empty. -/
theorem agent_tool_count_not_one : ¬ (agent.tools.length = 1) := by
  simp [agent]

/-- C1 amended: the checked-in agent's tool set is empty; it is the
tutorial's completed agent (README final `lib/agent.ts`) whose tool set
contains exactly one tool, `bashTool`, and that tool forwards the
LLM-generated command line and arguments to the isolated execution
environment's `runCommand` and returns the resulting stdout, stderr and
exit code. -/
theorem final_agent_single_tool (t : String × ToolExecute)
    (ht : t ∈ finalAgent.tools) :
    agent.tools = [] ∧
    finalAgent.tools.length = 1 ∧
    t.1 = "bashTool" ∧
    ∀ (runCommand : String → List String → CommandResult) (input : BashToolInput),
      t.2 runCommand input = runCommand input.command input.args := by
  have h : t = ("bashTool", bashToolExecute) := by
    simpa [finalAgent] using ht
  subst h
  exact ⟨rfl, rfl, rfl, fun _ _ => rfl⟩

theorem final_agent_single_tool_witness :
    (("bashTool", bashToolExecute) : String × ToolExecute) ∈ finalAgent.tools ∧
    agent.tools = [] ∧
    finalAgent.tools.length = 1 := by
  have hmem : (("bashTool", bashToolExecute) : String × ToolExecute) ∈ finalAgent.tools := by
    simp [finalAgent]
  have h := final_agent_single_tool _ hmem
  exact ⟨hmem, h.1, h.2.1⟩

/-- C2 counterexample: the claim says a one-time startup step copies each
local file into the execution environment, but the checked-in
`src/lib/agent.ts` module performs no sandbox file copy at all at load
time: its only top-level statement constructs the agent. -/
theorem startup_has_no_copy :
    ¬ ∃ a ∈ agentModuleStartup, a.isFileCopy = true := by
  decide

/-- C2 amended: the checked-in agent module performs no startup file copy;
it is the tutorial's completed `lib/agent.ts` (README final code) whose
module load copies each entry of the local `lib/calls` directory into the
sandbox at `calls/<name>` — one write per file, via a loop over the
directory's entries — strictly before the agent is constructed. -/
theorem final_startup_copies_each_file (cwd : String)
    (readdir : String → List String) (readFile : String → String)
    (file : String)
    (hf : file ∈ readdir (pathJoin (pathJoin cwd "lib") "calls")) :
    (¬ ∃ a ∈ agentModuleStartup, a.isFileCopy = true) ∧
    StartupAction.sandboxWriteFiles
        [{ path := "calls/" ++ file,
           content := readFile (pathJoin (pathJoin (pathJoin cwd "lib") "calls") file) }]
      ∈ (finalAgentModuleStartup cwd readdir readFile).dropLast ∧
    (finalAgentModuleStartup cwd readdir readFile).getLast? =
      some (StartupAction.constructAgent ["bashTool"]) := by
  refine ⟨by decide, ?_, ?_⟩
  · have h2 : (finalAgentModuleStartup cwd readdir readFile).dropLast =
        StartupAction.createSandbox ::
          (loadSandboxFiles cwd readdir readFile).map
            (fun w => StartupAction.sandboxWriteFiles [w]) := by
      unfold finalAgentModuleStartup
      rw [List.dropLast_concat]
    rw [h2]
    refine List.mem_cons_of_mem _ (List.mem_map.mpr ⟨_, ?_, rfl⟩)
    unfold loadSandboxFiles
    exact List.mem_map.mpr ⟨file, hf, rfl⟩
  · unfold finalAgentModuleStartup
    rw [List.getLast?_concat]

theorem final_startup_copies_each_file_witness :
    "call1.txt" ∈
      (fun _ : String => ["call1.txt"]) (pathJoin (pathJoin "/repo" "lib") "calls") ∧
    StartupAction.sandboxWriteFiles
        [{ path := "calls/" ++ "call1.txt",
           content := (fun _ : String => "transcript")
             (pathJoin (pathJoin (pathJoin "/repo" "lib") "calls") "call1.txt") }]
      ∈ (finalAgentModuleStartup "/repo" (fun _ => ["call1.txt"])
          (fun _ => "transcript")).dropLast := by
  have h := final_startup_copies_each_file "/repo" (fun _ => ["call1.txt"])
    (fun _ => "transcript") "call1.txt" (by simp)
  exact ⟨by simp, h.2.1⟩

/-- C5 counterexample: the claim says the tool's input schema consists of
exactly one field, but the bash tool's Zod schema (README `lib/tools.ts`)
has two fields, `command` and `args`. -/
theorem bash_tool_schema_not_one_field : ¬ (bashToolInputSchema.length = 1) := by
  decide

/-- C5 amended: the tool's input schema consists of exactly two fields,
`command` (a string) and `args` (a string array), and both values are
forwarded verbatim — unmodified — to the external command executor. -/
theorem bash_tool_schema_two_fields_forwarded :
    bashToolInputSchema.map Prod.fst = ["command", "args"] ∧
    bashToolInputSchema.length = 2 ∧
    ∀ (runCommand : String → List String → CommandResult) (input : BashToolInput),
      bashToolExecute runCommand input = runCommand input.command input.args :=
  ⟨rfl, rfl, fun _ _ => rfl⟩

/-- C3: for every request body with a messages array, the handler runs the
agent on the prompt extracted from the chat messages, and when the run
starts and yields a stream of events, the returned value is a streaming
response whose body is exactly that relayed event stream
(`src/app/api/route.ts` lines 8–46). -/
theorem post_streams_agent_output
    (agentStream : String → Except String (List UIEvent))
    (messages : List UIMessage) (events : List UIEvent)
    (h : agentStream (extractPrompt messages) = Except.ok events) :
    POST agentStream messages = Response.streamResponse events := by
  simp [POST, h]

theorem post_streams_agent_output_witness :
    POST (fun _ => Except.ok [UIEvent.fromAgent "hi"]) [] =
      Response.streamResponse [UIEvent.fromAgent "hi"] :=
  post_streams_agent_output _ [] [UIEvent.fromAgent "hi"] rfl

/-- C4: whenever starting the agent run throws, the handler catches the
error, writes the fixed display string as a `text-start`/`text-delta`/
`text-end` sequence sharing the id `"error"`, does not rethrow, and still
returns a stream response; and the handler returns a stream response on
every input (`src/app/api/route.ts` lines 24–42). -/
theorem post_error_fallback
    (agentStream : String → Except String (List UIEvent))
    (messages : List UIMessage) (e : String)
    (h : agentStream (extractPrompt messages) = Except.error e) :
    POST agentStream messages =
      Response.streamResponse
        [UIEvent.textStart "error",
         UIEvent.textDelta "error" "An error occurred. Please try again.",
         UIEvent.textEnd "error"] ∧
    ∀ (run : String → Except String (List UIEvent)) (msgs : List UIMessage),
      ∃ evs, POST run msgs = Response.streamResponse evs := by
  constructor
  · simp [POST, h]
  · intro run msgs
    exact ⟨_, rfl⟩

theorem post_error_fallback_witness :
    POST (fun _ => Except.error "boom") [] =
      Response.streamResponse
        [UIEvent.textStart "error",
         UIEvent.textDelta "error" "An error occurred. Please try again.",
         UIEvent.textEnd "error"] :=
  (post_error_fallback (fun _ => Except.error "boom") [] "boom" rfl).1

/-- C7: prompt extraction is total on degenerate input — it is a total
function, the empty messages array yields the empty prompt, and a last
message with no `parts` or with no text parts yields the empty prompt
(`src/app/api/route.ts` lines 9–19). -/
theorem extract_prompt_total_on_degenerate
    (messages : List UIMessage) (m : UIMessage)
    (hlast : messages.getLast? = some m) :
    extractPrompt [] = "" ∧
    (m.parts = none → extractPrompt messages = "") ∧
    ((m.parts.getD []).filter (fun part => part.type == "text") = [] →
      extractPrompt messages = "") := by
  refine ⟨rfl, ?_, ?_⟩
  · intro hp
    rw [extractPrompt_getLast messages m hlast]
    simp [specLastMessagePrompt, hp, string_intercalate_nil]
  · intro hfil
    rw [extractPrompt_getLast messages m hlast]
    simp [specLastMessagePrompt, hfil, string_intercalate_nil]

theorem extract_prompt_total_witness :
    extractPrompt [] = "" ∧
    extractPrompt [UIMessage.mk none] = "" ∧
    extractPrompt [UIMessage.mk (some [MessagePart.mk "image" "x"])] = "" := by
  have h1 := extract_prompt_total_on_degenerate [UIMessage.mk none]
    (UIMessage.mk none) rfl
  have h2 := extract_prompt_total_on_degenerate
    [UIMessage.mk (some [MessagePart.mk "image" "x"])]
    (UIMessage.mk (some [MessagePart.mk "image" "x"])) rfl
  exact ⟨h1.1, h1.2.1 rfl, h2.2.2 (by decide)⟩

/-- C8: the prompt depends only on the last element of the messages array —
two message lists with the same last message yield the same prompt — and
when a last message exists the prompt equals the newline-join of the `text`
fields of its parts of type `text`, in order, non-text parts ignored
(`src/app/api/route.ts` lines 12–19). -/
theorem prompt_depends_only_on_last :
    (∀ l1 l2 : List UIMessage, l1.getLast? = l2.getLast? →
      extractPrompt l1 = extractPrompt l2) ∧
    (∀ (l : List UIMessage) (m : UIMessage), l.getLast? = some m →
      extractPrompt l = specLastMessagePrompt m) := by
  constructor
  · intro l1 l2 h
    cases hl : l1.getLast? with
    | none =>
        have h2 : l2.getLast? = none := by rw [← h, hl]
        simp [extractPrompt, hl, h2]
    | some m =>
        have h2 : l2.getLast? = some m := by rw [← h, hl]
        rw [extractPrompt_getLast l1 m hl, extractPrompt_getLast l2 m h2]
  · exact extractPrompt_getLast

theorem prompt_depends_only_on_last_witness :
    extractPrompt
        [UIMessage.mk (some [MessagePart.mk "text" "a"]),
         UIMessage.mk (some [MessagePart.mk "text" "b"])] =
      extractPrompt [UIMessage.mk (some [MessagePart.mk "text" "b"])] ∧
    extractPrompt [UIMessage.mk (some [MessagePart.mk "text" "b"])] =
      specLastMessagePrompt (UIMessage.mk (some [MessagePart.mk "text" "b"])) :=
  ⟨prompt_depends_only_on_last.1 _ _ rfl,
   prompt_depends_only_on_last.2 _ _ rfl⟩

/-- C9: in the chat form's submit handler, an input whose trim is empty
sends no message and leaves the input state unchanged; any other input
resets the input state to the empty string and sends the original
untrimmed text (`src/unnamed/part_000` lines 13–19). -/
theorem handle_submit_spec (input : String) :
    (jsTrim input = "" →
      handleSubmit input = { inputState := input, sentMessage := none }) ∧
    (jsTrim input ≠ "" →
      handleSubmit input = { inputState := "", sentMessage := some input }) := by
  constructor
  · intro h
    simp [handleSubmit, h]
  · intro h
    simp [handleSubmit, h]

theorem handle_submit_spec_witness :
    handleSubmit "   " = { inputState := "   ", sentMessage := none } ∧
    handleSubmit "\x0B" = { inputState := "\x0B", sentMessage := none } ∧
    handleSubmit " hi " = { inputState := "", sentMessage := some " hi " } :=
  ⟨(handle_submit_spec "   ").1 (by decide),
   (handle_submit_spec "\x0B").1 (by decide),
   (handle_submit_spec " hi ").2 (by decide)⟩
